import Mathlib

/-!
Verification development for the youtube-gpt frontend (React/JSX client).

The embedding models the client's session orchestration logic:

* the streaming chat decoder of
  `src/frontend/src/components/ChatInterface.jsx` (`handleSend`), which
  feeds raw byte chunks through a `TextDecoder` created with
  `{ stream: true }` and accumulates the decoded text
  (`accumulatedContent += decoder.decode(value, { stream: true })`);
* the tab-activation gate and the generation handlers of
  `src/frontend/src/App.jsx` (`handleTabChange`, `handleSummarize`,
  `handleGenerateMCQ` and their catch blocks);
* the session reset, batched `process-all` application, non-batched
  summary/recommendation pipeline and quiz generation of the revisions
  kept as `src/unnamed/part_001` and `src/unnamed/part_002`.

Conventions: JS strings that only ever get compared to `''` or copied are
`String`; chat/stream text is modeled as the list of Unicode code points
(`List Nat`) so that the byte-level decoding and the `''` comparisons stay
fully computable.  Asynchronous handlers are embedded as pure functions
from the state *and the outcome of their remote call* to the next state,
mirroring the synchronous prefix / resolution structure of the source.
-/

/-! ## Streaming decoder

`TextDecoder.decode(chunk, { stream: true })` follows the WHATWG encoding
standard's UTF-8 decoder: a byte-at-a-time automaton that keeps the bytes
of an incomplete multi-byte sequence pending between calls.  `DecState`
carries the emitted code points (`acc`, the JS `accumulatedContent`) and
the automaton registers (code point under construction, bytes needed/seen,
and the valid continuation-byte range). -/

structure DecState where
  acc : List Nat
  cp : Nat
  needed : Nat
  seen : Nat
  lo : Nat
  hi : Nat
deriving DecidableEq, Repr

def DecState.init : DecState :=
  { acc := [], cp := 0, needed := 0, seen := 0, lo := 0x80, hi := 0xBF }

/-- The replacement character U+FFFD emitted on malformed input. -/
def uFFFD : Nat := 0xFFFD

/-- Handle one byte in the "no sequence open" state (WHATWG UTF-8 decoder,
`bytes needed = 0` case). -/
def startByte (s : DecState) (b : Nat) : DecState :=
  if b ≤ 0x7F then { s with acc := s.acc ++ [b] }
  else if 0xC2 ≤ b ∧ b ≤ 0xDF then
    { s with needed := 1, seen := 0, cp := b % 32, lo := 0x80, hi := 0xBF }
  else if 0xE0 ≤ b ∧ b ≤ 0xEF then
    { s with
      needed := 2, seen := 0, cp := b % 16,
      lo := if b = 0xE0 then 0xA0 else 0x80,
      hi := if b = 0xED then 0x9F else 0xBF }
  else if 0xF0 ≤ b ∧ b ≤ 0xF4 then
    { s with
      needed := 3, seen := 0, cp := b % 8,
      lo := if b = 0xF0 then 0x90 else 0x80,
      hi := if b = 0xF4 then 0x8F else 0xBF }
  else { s with acc := s.acc ++ [uFFFD] }

/-- Handle one valid continuation byte (WHATWG UTF-8 decoder, step 3). -/
def contByte (s : DecState) (b : Nat) : DecState :=
  let cp' := s.cp * 64 + b % 64
  if s.seen + 1 = s.needed then
    { s with
      acc := s.acc ++ [cp'], cp := 0, needed := 0, seen := 0,
      lo := 0x80, hi := 0xBF }
  else
    { s with cp := cp', seen := s.seen + 1, lo := 0x80, hi := 0xBF }

/-- One byte of the WHATWG UTF-8 decoding automaton.  An invalid
continuation byte emits U+FFFD, resets the automaton and reprocesses the
byte as a fresh lead byte ("prepend byte to stream"). -/
def processByte (s : DecState) (b : Nat) : DecState :=
  if s.needed = 0 then startByte s b
  else if s.lo ≤ b ∧ b ≤ s.hi then contByte s b
  else
    startByte
      { s with
        acc := s.acc ++ [uFFFD], cp := 0, needed := 0, seen := 0,
        lo := 0x80, hi := 0xBF } b

/-- One call of `decoder.decode(chunk, { stream: true })`: fold the chunk's
bytes through the automaton, keeping any incomplete sequence pending. -/
def feedChunk (s : DecState) (chunk : List Nat) : DecState :=
  chunk.foldl processByte s

/-- The read loop of `handleSend`: each received chunk is decoded in
streaming mode and appended to the accumulator. -/
def decodeChunks (chunks : List (List Nat)) : DecState :=
  chunks.foldl feedChunk DecState.init

theorem feedChunk_append (s : DecState) (a b : List Nat) :
    feedChunk s (a ++ b) = feedChunk (feedChunk s a) b :=
  List.foldl_append _ _ _ _

theorem foldl_feedChunk_flatten (chunks : List (List Nat)) :
    ∀ s : DecState, chunks.foldl feedChunk s = feedChunk s chunks.flatten := by
  induction chunks with
  | nil => intro s; rfl
  | cons c rest ih =>
    intro s
    rw [List.foldl_cons, List.flatten_cons, feedChunk_append]
    exact ih (feedChunk s c)

/-- C3: the streaming decoder's accumulated result depends only on the
concatenation of the byte chunks, not on where the chunk boundaries fall;
in particular a multi-byte character split across a boundary is carried
over by the automaton state and decoded intact.  Decoding any splitting
of a byte string equals decoding it in one chunk. -/
theorem c3_stream_split_invariance (chunks : List (List Nat)) :
    decodeChunks chunks = feedChunk DecState.init chunks.flatten :=
  foldl_feedChunk_flatten chunks DecState.init

/-- The two-byte character U+00E9 split across a chunk boundary is
decoded intact, exactly as when decoded in one chunk. -/
theorem decode_split_multibyte_demo :
    (decodeChunks [[0xC3], [0xA9]]).acc = [0xE9]
    ∧ (feedChunk DecState.init [0xC3, 0xA9]).acc = [0xE9] := by decide

/-! ## Chat interface (`src/frontend/src/components/ChatInterface.jsx`)

`handleSend` guards on `!input.trim() || loading || isChunking`, appends
the trimmed user message and an empty assistant placeholder, POSTs to
`/chat`, and then runs the read loop: after each decoded chunk the last
message's content is replaced by the accumulator.  The catch block sets
an error string and filters out every message whose content is `''`.
Message content is the list of Unicode code points of the JS string. -/

inductive Role
  | user
  | assistant
deriving DecidableEq, Repr

structure Msg where
  role : Role
  content : List Nat
deriving DecidableEq, Repr

/-- `updated[updated.length - 1] = { ...last, content := c }`. -/
def setLast : List Msg → List Nat → List Msg
  | [], _ => []
  | [m], c => [{ m with content := c }]
  | m :: m' :: ms, c => m :: setLast (m' :: ms) c

/-- The `while (true) { reader.read() ... }` loop: decode each chunk in
streaming mode, accumulate, and rewrite the last message's content with
the accumulator after every chunk. -/
def runChunks : List Msg → DecState → List (List Nat) → List Msg × DecState
  | msgs, dec, [] => (msgs, dec)
  | msgs, dec, ch :: rest =>
    let dec' := feedChunk dec ch
    runChunks (setLast msgs dec'.acc) dec' rest

/-- How one chat exchange ends: the stream delivers `chunks` and then
either finishes normally (`success`) or an exception is thrown
(`failure`, covering a non-ok HTTP status — then `chunks = []` — or a
network error mid-stream). -/
inductive ChatOutcome
  | success (chunks : List (List Nat))
  | failure (chunks : List (List Nat)) (emsg : List Nat)
deriving DecidableEq, Repr

/-- Code points of a string literal, for the fixed message texts. -/
def strCps (s : String) : List Nat :=
  s.data.map Char.toNat

/-- `'Error: ' + err.message`. -/
def errTag : List Nat := strCps "Error: "

structure SendResult where
  messages : List Msg
  error : List Nat
  sentRequest : Bool
deriving DecidableEq, Repr

/-- `handleSend` of `ChatInterface.jsx`, as a function of the chat state
(`prevError`, `msgs`, the `isChunking` prop, the `loading` flag), the
trimmed input and the exchange's outcome.  `sentRequest` records whether
the `/chat` request was issued. -/
def handleSend (prevError : List Nat) (msgs : List Msg)
    (isChunking loading : Bool) (input : List Nat)
    (outcome : ChatOutcome) : SendResult :=
  if input = [] ∨ loading ∨ isChunking then
    { messages := msgs, error := prevError, sentRequest := false }
  else
    let start := msgs ++ [⟨Role.user, input⟩, ⟨Role.assistant, []⟩]
    match outcome with
    | ChatOutcome.success chunks =>
      { messages := (runChunks start DecState.init chunks).1,
        error := [], sentRequest := true }
    | ChatOutcome.failure chunks emsg =>
      let after := (runChunks start DecState.init chunks).1
      { messages := after.filter (fun m => !m.content.isEmpty),
        error := errTag ++ emsg, sentRequest := true }

theorem setLast_append (ms : List Msg) (m : Msg) (c : List Nat) :
    setLast (ms ++ [m]) c = ms ++ [{ m with content := c }] := by
  induction ms with
  | nil => rfl
  | cons a t ih =>
    cases t with
    | nil => rfl
    | cons b t' => simpa [setLast] using ih

theorem runChunks_spec (chunks : List (List Nat)) :
    ∀ (ms : List Msg) (r : Role) (dec : DecState),
      runChunks (ms ++ [⟨r, dec.acc⟩]) dec chunks
        = (ms ++ [⟨r, (feedChunk dec chunks.flatten).acc⟩],
           feedChunk dec chunks.flatten) := by
  induction chunks with
  | nil => intro ms r dec; rfl
  | cons ch rest ih =>
    intro ms r dec
    rw [List.flatten_cons, feedChunk_append]
    show runChunks (setLast (ms ++ [⟨r, dec.acc⟩]) (feedChunk dec ch).acc)
        (feedChunk dec ch) rest = _
    rw [setLast_append]
    exact ih ms r (feedChunk dec ch)

/-- C6: while ingestion/chunking is running, a chat-send attempt is
rejected up front: the chat history is unchanged, the error state is
unchanged, and no `/chat` request is issued. -/
theorem c6_chat_blocked_while_chunking (prevError : List Nat)
    (msgs : List Msg) (loading : Bool) (input : List Nat)
    (outcome : ChatOutcome) :
    handleSend prevError msgs true loading input outcome
      = { messages := msgs, error := prevError, sentRequest := false } := by
  simp [handleSend]

theorem handleSend_failure_messages (prevError : List Nat) (ms : List Msg)
    (input emsg : List Nat) (chunks : List (List Nat)) (hu : input ≠ []) :
    (handleSend prevError ms false false input
        (ChatOutcome.failure chunks emsg)).messages
      = (ms ++ [(⟨Role.user, input⟩ : Msg),
          (⟨Role.assistant, (feedChunk DecState.init chunks.flatten).acc⟩ : Msg)]).filter
          (fun m => !m.content.isEmpty) := by
  unfold handleSend
  rw [if_neg (by simp [hu])]
  have h := runChunks_spec chunks (ms ++ [⟨Role.user, input⟩])
    Role.assistant DecState.init
  have hacc : DecState.init.acc = [] := rfl
  rw [hacc] at h
  simp only [List.append_assoc, List.cons_append, List.nil_append] at h
  simp only [h]

theorem handleSend_failure_error (prevError : List Nat) (ms : List Msg)
    (input emsg : List Nat) (chunks : List (List Nat)) (hu : input ≠ []) :
    (handleSend prevError ms false false input
        (ChatOutcome.failure chunks emsg)).error = errTag ++ emsg := by
  unfold handleSend
  rw [if_neg (by simp [hu])]

/-- C10: on a chat-stream failure the catch block filters the whole
history by `content !== ''`: the result is exactly the pre-failure
message list with every empty-content message removed — so any earlier
message that happens to be empty is deleted too — while every non-empty
message, including the partially streamed assistant reply, is retained
in order. -/
theorem c10_failure_filter_semantics (prevError : List Nat) (ms : List Msg)
    (input emsg : List Nat) (chunks : List (List Nat)) (hu : input ≠ []) :
    (handleSend prevError ms false false input
        (ChatOutcome.failure chunks emsg)).messages
      = (ms ++ [(⟨Role.user, input⟩ : Msg),
          (⟨Role.assistant, (feedChunk DecState.init chunks.flatten).acc⟩ : Msg)]).filter
          (fun m => !m.content.isEmpty)
    ∧ ∀ m ∈ ms, m.content = [] →
        m ∉ (handleSend prevError ms false false input
          (ChatOutcome.failure chunks emsg)).messages := by
  refine ⟨handleSend_failure_messages _ _ _ _ _ hu, ?_⟩
  intro m _ hc
  rw [handleSend_failure_messages _ _ _ _ _ hu]
  intro hmem
  have hp := (List.mem_filter.mp hmem).2
  rw [hc] at hp
  simp at hp

theorem c10_witness :
    (handleSend [] [⟨Role.assistant, []⟩] false false [104]
        (ChatOutcome.failure [[97]] [33])).messages
      = ([(⟨Role.assistant, []⟩ : Msg)] ++ [(⟨Role.user, [104]⟩ : Msg),
          (⟨Role.assistant, (feedChunk DecState.init [[97]].flatten).acc⟩ : Msg)]).filter
          (fun m => !m.content.isEmpty)
    ∧ ∀ m ∈ [(⟨Role.assistant, []⟩ : Msg)], m.content = [] →
        m ∉ (handleSend [] [⟨Role.assistant, []⟩] false false [104]
          (ChatOutcome.failure [[97]] [33])).messages :=
  c10_failure_filter_semantics [] [⟨Role.assistant, []⟩] [104] [33] [[97]]
    (by decide)

/-- C5 counterexample: the claim's second half fails as stated.  One
chunk — the lone UTF-8 lead byte 0xC3 — is delivered and decoded (to the
empty string, the byte being kept pending by the streaming decoder)
before the stream fails; the assistant message is then removed even
though the failure occurred after a chunk was decoded. -/
theorem c5_counterexample :
    (handleSend [] [] false false [104, 105]
        (ChatOutcome.failure [[0xC3]] [120])).messages
      = [⟨Role.user, [104, 105]⟩]
    ∧ ([[0xC3]] : List (List Nat)) ≠ [] := by decide

/-- C5 (amended): on a chat-stream failure, if no chunk arrived the empty
assistant placeholder is removed (no empty-content message survives) and
an error is surfaced; if the decoded accumulated content is non-empty,
the assistant message holding that partial content is kept as the last
message and an error is surfaced. -/
theorem c5_failure_placeholder_vs_partial (prevError : List Nat)
    (ms : List Msg) (input emsg : List Nat) (chunks : List (List Nat))
    (hu : input ≠ []) :
    (chunks = [] →
      (∀ m ∈ (handleSend prevError ms false false input
          (ChatOutcome.failure chunks emsg)).messages, m.content ≠ [])
      ∧ (handleSend prevError ms false false input
          (ChatOutcome.failure chunks emsg)).error ≠ [])
    ∧ ((feedChunk DecState.init chunks.flatten).acc ≠ [] →
      (handleSend prevError ms false false input
          (ChatOutcome.failure chunks emsg)).messages.getLast?
        = some ⟨Role.assistant, (feedChunk DecState.init chunks.flatten).acc⟩
      ∧ (handleSend prevError ms false false input
          (ChatOutcome.failure chunks emsg)).error ≠ []) := by
  have herr : (handleSend prevError ms false false input
      (ChatOutcome.failure chunks emsg)).error ≠ [] := by
    rw [handleSend_failure_error _ _ _ _ _ hu]
    simp [errTag, strCps]
  constructor
  · intro _
    refine ⟨?_, herr⟩
    intro m hm
    rw [handleSend_failure_messages _ _ _ _ _ hu] at hm
    have hp := (List.mem_filter.mp hm).2
    intro hc
    rw [hc] at hp
    simp at hp
  · intro hacc
    refine ⟨?_, herr⟩
    rw [handleSend_failure_messages _ _ _ _ _ hu]
    rw [show (ms ++ [(⟨Role.user, input⟩ : Msg),
        (⟨Role.assistant, (feedChunk DecState.init chunks.flatten).acc⟩ : Msg)])
      = (ms ++ [(⟨Role.user, input⟩ : Msg)])
        ++ [(⟨Role.assistant, (feedChunk DecState.init chunks.flatten).acc⟩ : Msg)]
      from by simp]
    rw [List.filter_append _ _]
    rw [show List.filter (fun m => !m.content.isEmpty)
        [(⟨Role.assistant, (feedChunk DecState.init chunks.flatten).acc⟩ : Msg)]
      = [(⟨Role.assistant, (feedChunk DecState.init chunks.flatten).acc⟩ : Msg)]
      from by
        have he : (feedChunk DecState.init chunks.flatten).acc.isEmpty = false := by
          simp [List.isEmpty_iff, hacc]
        simp [List.filter, he]]
    exact List.getLast?_concat _

theorem c5_witness :
    (([104, 105] : List Nat) ≠ [])
    ∧ ((([[195], [169]] : List (List Nat)) = [] →
        (∀ m ∈ (handleSend [] [] false false [104, 105]
            (ChatOutcome.failure [[195], [169]] [120])).messages, m.content ≠ [])
        ∧ (handleSend [] [] false false [104, 105]
            (ChatOutcome.failure [[195], [169]] [120])).error ≠ [])
      ∧ ((feedChunk DecState.init ([[195], [169]] : List (List Nat)).flatten).acc ≠ [] →
        (handleSend [] [] false false [104, 105]
            (ChatOutcome.failure [[195], [169]] [120])).messages.getLast?
          = some ⟨Role.assistant,
              (feedChunk DecState.init ([[195], [169]] : List (List Nat)).flatten).acc⟩
        ∧ (handleSend [] [] false false [104, 105]
            (ChatOutcome.failure [[195], [169]] [120])).error ≠ [])) :=
  ⟨by decide,
   c5_failure_placeholder_vs_partial [] [] [104, 105] [120] [[195], [169]]
     (by decide)⟩

/-! ## App session state and tab-activation gate
(`src/frontend/src/App.jsx`, on-demand revision)

The component state relevant to the gate and the generation handlers.
`handleTabChange` toggles the already-open active tab closed, otherwise
switches and triggers `handleSummarize` when the summary pane is visited
with `summary === ''`, or `handleGenerateMCQ` when the quiz pane is
visited with `mcqs.length === 0`.  The handlers' synchronous prefixes
(everything before their `await api.post`) update the state and issue a
request; while the response is pending the artifact's content stays
empty. -/

inductive Tab
  | transcript
  | summary
  | mcqs
  | chat
  | mindmap
  | recommendations
deriving DecidableEq, Repr

inductive GenReq
  | summarizeCall
  | mcqCall
deriving DecidableEq, Repr

structure AppState where
  transcript : String
  summary : String
  mcqs : List Nat
  gradingResults : Option (List Nat)
  loading : Bool
  error : String
  llmError : String
  isChunking : Bool
  activeTab : Tab
  isSidebarOpen : Bool
deriving DecidableEq, Repr

/-- Synchronous prefix of `handleSummarize` (App.jsx): guard on an empty
transcript, set `loading`, clear both error surfaces, issue the
`/summarize` request. -/
def handleSummarizeStart (st : AppState) : AppState × List GenReq :=
  if st.transcript = "" then (st, [])
  else
    ({ st with loading := true, error := "", llmError := "" },
     [GenReq.summarizeCall])

/-- Synchronous prefix of `handleGenerateMCQ` (App.jsx): guard on an
empty transcript, set `loading`, clear errors, clear `mcqs` and
`gradingResults`, issue the `/generate-mcq` request. -/
def handleGenerateMCQStart (st : AppState) : AppState × List GenReq :=
  if st.transcript = "" then (st, [])
  else
    ({ st with
       loading := true, error := "", mcqs := [], gradingResults := none,
       llmError := "" },
     [GenReq.mcqCall])

/-- `handleTabChange` (App.jsx): toggle the open active tab closed,
otherwise switch, open the sidebar, and lazily trigger generation for an
empty summary or an empty quiz. -/
def handleTabChange (st : AppState) (tab : Tab) : AppState × List GenReq :=
  if st.activeTab = tab ∧ st.isSidebarOpen then
    ({ st with isSidebarOpen := false }, [])
  else
    let st1 := { st with activeTab := tab, isSidebarOpen := true }
    if tab = Tab.summary ∧ st1.summary = "" then handleSummarizeStart st1
    else if tab = Tab.mcqs ∧ st1.mcqs = [] then handleGenerateMCQStart st1
    else (st1, [])

/-- A sequence of tab-selection events, collecting every generation
request issued along the way. -/
def runTabs (st : AppState) (tabs : List Tab) : AppState × List GenReq :=
  match tabs with
  | [] => (st, [])
  | t :: ts =>
    let p1 := handleTabChange st t
    let p2 := runTabs p1.1 ts
    (p2.1, p1.2 ++ p2.2)

/-- A fresh ready session: transcript fetched, no artifact yet, summary
request outcome still pending (`summary = ''`). -/
def sessionLoadingState : AppState :=
  { transcript := "t", summary := "", mcqs := [], gradingResults := none,
    loading := false, error := "", llmError := "", isChunking := false,
    activeTab := Tab.transcript, isSidebarOpen := true }

/-- C4 counterexample: from a session whose summary request is still in
flight (`summary = ''`), selecting the summary tab three times issues
the summarize request twice — the gate checks content emptiness, not
in-flight status, so the per-kind call count does not stay at 1. -/
theorem c4_counterexample :
    (runTabs sessionLoadingState
        [Tab.summary, Tab.summary, Tab.summary]).2.count GenReq.summarizeCall = 2
    ∧ sessionLoadingState.summary = "" := by decide

theorem handleTabChange_summary_eq (st : AppState) (t : Tab) :
    (handleTabChange st t).1.summary = st.summary := by
  simp only [handleTabChange, handleSummarizeStart, handleGenerateMCQStart]
  split_ifs <;> rfl

theorem handleTabChange_no_sum_call (st : AppState) (t : Tab)
    (h : st.summary ≠ "") :
    (handleTabChange st t).2.count GenReq.summarizeCall = 0 := by
  simp only [handleTabChange, handleSummarizeStart, handleGenerateMCQStart]
  split_ifs with h1 h2 h3 h4 h5 <;> simp_all [List.count_cons]

theorem handleTabChange_mcqs_eq (st : AppState) (t : Tab) (h : st.mcqs ≠ []) :
    (handleTabChange st t).1.mcqs = st.mcqs := by
  simp only [handleTabChange, handleSummarizeStart, handleGenerateMCQStart]
  split_ifs <;> simp_all

theorem handleTabChange_no_mcq_call (st : AppState) (t : Tab)
    (h : st.mcqs ≠ []) :
    (handleTabChange st t).2.count GenReq.mcqCall = 0 := by
  simp only [handleTabChange, handleSummarizeStart, handleGenerateMCQStart]
  split_ifs <;> simp_all [List.count_cons]

/-- C4 (amended): the gate is idempotent for a *ready* artifact — once
the summary content is non-empty no tab sequence issues another
summarize request, and once the quiz list is non-empty no tab sequence
issues another quiz request.  (While a request is merely in flight, with
content still empty, re-selecting the tab can issue a duplicate; see the
counterexample.) -/
theorem c4_ready_tab_idempotent (st : AppState) (tabs : List Tab) :
    (st.summary ≠ "" → (runTabs st tabs).2.count GenReq.summarizeCall = 0)
    ∧ (st.mcqs ≠ [] → (runTabs st tabs).2.count GenReq.mcqCall = 0) := by
  induction tabs generalizing st with
  | nil => exact ⟨fun _ => rfl, fun _ => rfl⟩
  | cons t ts ih =>
    constructor
    · intro hs
      show ((handleTabChange st t).2
        ++ (runTabs (handleTabChange st t).1 ts).2).count GenReq.summarizeCall = 0
      rw [List.count_append]
      have h1 := handleTabChange_no_sum_call st t hs
      have h2 := (ih (handleTabChange st t).1).1
        (by rw [handleTabChange_summary_eq]; exact hs)
      omega
    · intro hm
      show ((handleTabChange st t).2
        ++ (runTabs (handleTabChange st t).1 ts).2).count GenReq.mcqCall = 0
      rw [List.count_append]
      have h1 := handleTabChange_no_mcq_call st t hm
      have h2 := (ih (handleTabChange st t).1).2
        (by rw [handleTabChange_mcqs_eq st t hm]; exact hm)
      omega

/-- A session with both the summary and the quiz ready. -/
def sessionReadyState : AppState :=
  { sessionLoadingState with summary := "s", mcqs := [1] }

theorem c4_witness :
    (sessionReadyState.summary ≠ ""
      → (runTabs sessionReadyState
          [Tab.summary, Tab.mcqs, Tab.summary]).2.count GenReq.summarizeCall = 0)
    ∧ (sessionReadyState.mcqs ≠ []
      → (runTabs sessionReadyState
          [Tab.summary, Tab.mcqs, Tab.summary]).2.count GenReq.mcqCall = 0) :=
  c4_ready_tab_idempotent sessionReadyState [Tab.summary, Tab.mcqs, Tab.summary]

/-! ## Generation failure surfaces (`App.jsx` catch blocks)

`handleSummarize` / `handleGenerateMCQ` catch a failed call and branch on
`err.response?.status === 500`: exactly 500 sets the LLM advisory and
clears the generic error; anything else sets the generic error from
`err.response?.data?.detail || err.message` and clears the advisory. -/

/-- The advisory shown when the generation backend is down. -/
def llmAdvisory : String :=
  "The LLM is currently not available. Please try again later."

/-- The parts of an axios error the catch blocks read: the response
status (absent on a network error), the response body's `detail`, and
the error's `message`. -/
structure HttpErr where
  status : Option Nat
  detail : Option String
  message : String
deriving DecidableEq, Repr

/-- `err.response?.data?.detail || err.message` (falls back on a missing
or empty detail, as JS `||` does). -/
def errDetail (e : HttpErr) : String :=
  match e.detail with
  | some d => if d = "" then e.message else d
  | none => e.message

/-- The catch/finally of `handleSummarize` on a failed `/summarize`. -/
def summarizeCatch (st : AppState) (e : HttpErr) : AppState :=
  if e.status = some 500 then
    { st with llmError := llmAdvisory, error := "", loading := false }
  else
    { st with
      error := "Failed to summarize. " ++ errDetail e, llmError := "",
      loading := false }

/-- The catch/finally of `handleGenerateMCQ` on a failed `/generate-mcq`. -/
def generateMCQCatch (st : AppState) (e : HttpErr) : AppState :=
  if e.status = some 500 then
    { st with llmError := llmAdvisory, error := "", loading := false }
  else
    { st with
      error := "Failed to generate MCQs. " ++ errDetail e, llmError := "",
      loading := false }

/-- A 500-class (but not exactly 500) failure, as a gateway returns. -/
def err503 : HttpErr :=
  { status := some 503, detail := some "Service Unavailable",
    message := "Request failed with status code 503" }

/-- C7 counterexample: a 503 failure is 500-class, yet the code branches
on `status === 500` only, so it is surfaced as the generic error and
the advisory stays empty — contradicting the claim for 500-class
statuses other than 500 itself. -/
theorem c7_counterexample :
    (summarizeCatch sessionLoadingState err503).llmError = ""
    ∧ (summarizeCatch sessionLoadingState err503).error
      = "Failed to summarize. Service Unavailable"
    ∧ (500 ≤ 503 ∧ 503 ≤ 599) := by decide

/-- C7 (amended): a failure whose status is *exactly* 500 is surfaced as
the LLM advisory with the generic error cleared; any other failure is
surfaced as the generic handler message plus the detail string with the
advisory cleared; the two surfaces are mutually exclusive.  Both
generation handlers behave alike. -/
theorem c7_error_surfaces (st : AppState) (e : HttpErr) :
    (e.status = some 500 →
      (summarizeCatch st e).llmError = llmAdvisory
      ∧ (summarizeCatch st e).error = ""
      ∧ (generateMCQCatch st e).llmError = llmAdvisory
      ∧ (generateMCQCatch st e).error = "")
    ∧ (e.status ≠ some 500 →
      (summarizeCatch st e).error = "Failed to summarize. " ++ errDetail e
      ∧ (summarizeCatch st e).llmError = ""
      ∧ (generateMCQCatch st e).error = "Failed to generate MCQs. " ++ errDetail e
      ∧ (generateMCQCatch st e).llmError = "")
    ∧ ((summarizeCatch st e).error = "" ∨ (summarizeCatch st e).llmError = "")
    ∧ ((generateMCQCatch st e).error = "" ∨ (generateMCQCatch st e).llmError = "") := by
  unfold summarizeCatch generateMCQCatch
  by_cases h : e.status = some 500 <;> simp [h]

theorem c7_witness :
    (summarizeCatch sessionLoadingState
        { status := some 500, detail := none,
          message := "Internal Server Error" }).llmError = llmAdvisory
    ∧ (summarizeCatch sessionLoadingState err503).llmError = "" :=
  ⟨((c7_error_surfaces sessionLoadingState
      { status := some 500, detail := none,
        message := "Internal Server Error" }).1 rfl).1,
   ((c7_error_surfaces sessionLoadingState err503).2.1 (by decide)).2.1⟩

/-- C8 (amended): in the on-demand revision (`src/frontend/src/App.jsx`),
starting a new quiz generation synchronously clears the prior
submission's grading results and the old question set before the request
is issued, so the submission/grading field is absent until answers are
submitted for the new quiz. -/
theorem c8_generate_clears_submission (st : AppState)
    (h : st.transcript ≠ "") :
    (handleGenerateMCQStart st).1.gradingResults = none
    ∧ (handleGenerateMCQStart st).1.mcqs = []
    ∧ (handleGenerateMCQStart st).2 = [GenReq.mcqCall] := by
  unfold handleGenerateMCQStart
  rw [if_neg h]
  exact ⟨rfl, rfl, rfl⟩

/-- A session holding a graded quiz submission. -/
def sessionGradedState : AppState :=
  { sessionLoadingState with mcqs := [1, 2], gradingResults := some [1] }

theorem c8_witness :
    (handleGenerateMCQStart sessionGradedState).1.gradingResults = none
    ∧ (handleGenerateMCQStart sessionGradedState).1.mcqs = []
    ∧ (handleGenerateMCQStart sessionGradedState).2 = [GenReq.mcqCall] :=
  c8_generate_clears_submission sessionGradedState (by decide)

/-! ## Batched revision (`src/unnamed/part_002`, with `part_001` sharing
the summary/recommendations pipeline)

This revision adds per-session state for chat messages, recommendations,
a mind map and its loading flags.  `handleSelectVideo` resets the
per-session fields; `handleProcessAll`'s resolution applies the batched
response; `handleSummarize`/`fetchRecommendations` form the non-batched
summary → recommendations pipeline; `handleGenerateMCQ` regenerates the
quiz. -/

structure Video where
  id : String
  title : String
  link : String
deriving DecidableEq, Repr

structure AppState2 where
  selectedVideo : Option Video
  transcript : String
  summary : String
  mcqs : List Nat
  gradingResults : Option (List Nat)
  chatMessages : List Msg
  recommendations : List Nat
  videoId : Option String
  error : String
  llmError : String
  isChunking : Bool
  loading : Bool
  loadingSummary : Bool
  loadingMindMap : Bool
  activeTab : Tab
  isSidebarOpen : Bool
  mindMap : String
deriving DecidableEq, Repr

/-- `handleSelectVideo` of `part_002` (lines 67–82): the per-session
reset run synchronously on selection.  It clears the transcript,
summary, quiz, grading, chat, recommendations, video id, advisory,
chunking flag, tab and sidebar — and does not touch `mindMap` (the
source has no `setMindMap('')` call). -/
def handleSelectVideo2 (st : AppState2) (v : Video) : AppState2 :=
  { st with
    selectedVideo := some v, transcript := "", summary := "", mcqs := [],
    gradingResults := none, chatMessages := [], recommendations := [],
    videoId := none, llmError := "", isChunking := false,
    activeTab := Tab.transcript, isSidebarOpen := false }

/-- The body of a successful `/process-all` response. -/
structure PAData where
  summary : String
  mcqs : List Nat
  mindMap : String
  recommendations : List Nat
deriving DecidableEq, Repr

/-- The resolution of `handleProcessAll`'s `await api.post('/process-all',
...)` (lines 214–232): the response data is written into the session
state unconditionally — the code carries no session identifier to check
against, so a response from a previously selected video is applied all
the same. -/
def applyProcessAll (st : AppState2) (d : PAData) : AppState2 :=
  { st with
    summary := d.summary, mcqs := d.mcqs, mindMap := d.mindMap,
    recommendations := d.recommendations, loadingSummary := false,
    loadingMindMap := false, isChunking := false }

/-- C1 (code bug): the selection reset clears every per-session field it
names but carries the previous session's `mindMap` over unchanged —
the mind-map artifact of selection N−1 survives into selection N. -/
theorem c1_reset_keeps_mindmap (st : AppState2) (v : Video) :
    (handleSelectVideo2 st v).mindMap = st.mindMap
    ∧ (handleSelectVideo2 st v).transcript = ""
    ∧ (handleSelectVideo2 st v).summary = ""
    ∧ (handleSelectVideo2 st v).mcqs = []
    ∧ (handleSelectVideo2 st v).gradingResults = none
    ∧ (handleSelectVideo2 st v).chatMessages = []
    ∧ (handleSelectVideo2 st v).recommendations = []
    ∧ (handleSelectVideo2 st v).videoId = none :=
  ⟨rfl, rfl, rfl, rfl, rfl, rfl, rfl, rfl⟩

/-- C2 (code bug): applying a `/process-all` response right after a new
video was selected overwrites the fresh session's artifacts with the
response's data, whatever video that response belonged to — there is no
stale-session check, so a late response for the previous video is
applied rather than discarded. -/
theorem c2_stale_response_applied (st : AppState2) (v : Video) (d : PAData) :
    (applyProcessAll (handleSelectVideo2 st v) d).summary = d.summary
    ∧ (applyProcessAll (handleSelectVideo2 st v) d).mcqs = d.mcqs
    ∧ (applyProcessAll (handleSelectVideo2 st v) d).mindMap = d.mindMap
    ∧ (applyProcessAll (handleSelectVideo2 st v) d).recommendations
      = d.recommendations
    ∧ (handleSelectVideo2 st v).summary = "" :=
  ⟨rfl, rfl, rfl, rfl, rfl⟩

/-- `handleGenerateMCQ` of `part_002` (lines 174–185), as a function of
the call's outcome (`some qs` on success, `none` on failure): guard on
an empty transcript, issue the request, and on success write the new
questions.  Unlike the on-demand revision, it clears neither `mcqs` nor
`gradingResults`. -/
def handleGenerateMCQ2 (st : AppState2) (text : String)
    (outcome : Option (List Nat)) : AppState2 × List GenReq :=
  let t := if text = "" then st.transcript else text
  if t = "" then (st, [])
  else
    (match outcome with
     | some qs => { st with mcqs := qs }
     | none => st,
     [GenReq.mcqCall])

/-- A `part_002` session holding a graded quiz submission. -/
def sessionGraded2 : AppState2 :=
  { selectedVideo := some { id := "a", title := "A", link := "la" },
    transcript := "t", summary := "s", mcqs := [1, 2],
    gradingResults := some [1], chatMessages := [], recommendations := [],
    videoId := some "a", error := "", llmError := "", isChunking := false,
    loading := false, loadingSummary := false, loadingMindMap := false,
    activeTab := Tab.mcqs, isSidebarOpen := true, mindMap := "" }

/-- C8 counterexample: in the `part_002` revision a new quiz generation
is started (the request is issued) and even completes with fresh
questions, yet the prior submission's grading results are still present
— the revision's `handleGenerateMCQ` never clears `gradingResults`. -/
theorem c8_counterexample :
    (handleGenerateMCQ2 sessionGraded2 "" (some [7])).1.gradingResults
      = some [1]
    ∧ (handleGenerateMCQ2 sessionGraded2 "" (some [7])).2 = [GenReq.mcqCall]
    ∧ (handleGenerateMCQ2 sessionGraded2 "" none).1.gradingResults
      = some [1] := by decide

/-! ## Non-batched summary → recommendations pipeline
(`part_001` lines 118–147, identical in `part_002` lines 127–156) -/

/-- The requests the non-batched pipeline can issue. -/
inductive NBReq
  | summarizeCall (t : String)
  | recommendCall (t s : String)
deriving DecidableEq, Repr

def isSummarizeCall : NBReq → Bool
  | NBReq.summarizeCall _ => true
  | _ => false

/-- `fetchRecommendations`: issue `/recommend` with the transcript and
the summary; on success write the recommendations, on failure only log
— the session state is otherwise untouched. -/
def fetchRecommendations2 (st : AppState2) (t s : String)
    (recRes : Option (List Nat)) : AppState2 × List NBReq :=
  (match recRes with
   | some r => { st with recommendations := r }
   | none => st,
   [NBReq.recommendCall t s])

/-- `handleSummarize` of the non-batched path, as a function of the two
remote outcomes: guard on an empty transcript; issue `/summarize`; on
success write the summary and only then call `fetchRecommendations`
with the produced summary text; on failure only log.  `loadingSummary`
is set for the duration and cleared in the `finally`. -/
def handleSummarize2 (st : AppState2) (text : String)
    (sumRes : Option String) (recRes : Option (List Nat)) :
    AppState2 × List NBReq :=
  let t := if text = "" then st.transcript else text
  if t = "" then (st, [])
  else
    match sumRes with
    | none => ({ st with loadingSummary := false }, [NBReq.summarizeCall t])
    | some s =>
      let st1 := { st with summary := s }
      let p := fetchRecommendations2 st1 t s recRes
      ({ p.1 with loadingSummary := false }, NBReq.summarizeCall t :: p.2)

/-- C9: in the non-batched path a recommendations request is issued only
when the summarize call completed successfully, it carries the produced
summary as input, the summarize request precedes it, and a failing
recommendations call leaves the summary as produced (still ready) while
no second summarize request is issued. -/
theorem c9_recommend_after_summary (st : AppState2) (text : String)
    (sumRes : Option String) (recRes : Option (List Nat))
    (ht : (if text = "" then st.transcript else text) ≠ "") :
    (∀ a b, NBReq.recommendCall a b
        ∈ (handleSummarize2 st text sumRes recRes).2 →
      sumRes = some b ∧ a = (if text = "" then st.transcript else text))
    ∧ (handleSummarize2 st text sumRes recRes).2.head?
      = some (NBReq.summarizeCall (if text = "" then st.transcript else text))
    ∧ (∀ s, sumRes = some s → recRes = none →
      (handleSummarize2 st text sumRes recRes).1.summary = s
      ∧ ((handleSummarize2 st text sumRes recRes).2.filter
          isSummarizeCall).length = 1) := by
  unfold handleSummarize2 fetchRecommendations2
  rw [if_neg ht]
  cases sumRes with
  | none =>
    refine ⟨?_, rfl, ?_⟩
    · intro a b hmem
      simp at hmem
    · intro s hs
      exact absurd hs (by simp)
  | some s0 =>
    cases recRes with
    | none =>
      refine ⟨?_, rfl, ?_⟩
      · intro a b hmem
        simp at hmem
        exact ⟨by rw [hmem.2], hmem.1⟩
      · intro s hs _
        refine ⟨?_, ?_⟩
        · simp at hs
          rw [← hs]
        · simp [isSummarizeCall, List.filter]
    | some r =>
      refine ⟨?_, rfl, ?_⟩
      · intro a b hmem
        simp at hmem
        exact ⟨by rw [hmem.2], hmem.1⟩
      · intro s _ hr
        exact absurd hr (by simp)

/-- A ready `part_001`/`part_002` session before summarization. -/
def sessionPreSummary2 : AppState2 :=
  { sessionGraded2 with summary := "", loadingSummary := true }

theorem c9_witness :
    (∀ a b, NBReq.recommendCall a b
        ∈ (handleSummarize2 sessionPreSummary2 "" (some "sum") none).2 →
      (some "sum" : Option String) = some b
      ∧ a = (if ("" : String) = "" then sessionPreSummary2.transcript else ""))
    ∧ (handleSummarize2 sessionPreSummary2 "" (some "sum") none).2.head?
      = some (NBReq.summarizeCall
          (if ("" : String) = "" then sessionPreSummary2.transcript else ""))
    ∧ (∀ s, (some "sum" : Option String) = some s → (none : Option (List Nat)) = none →
      (handleSummarize2 sessionPreSummary2 "" (some "sum") none).1.summary = s
      ∧ ((handleSummarize2 sessionPreSummary2 "" (some "sum") none).2.filter
          isSummarizeCall).length = 1) :=
  c9_recommend_after_summary sessionPreSummary2 "" (some "sum") none (by decide)
